import Mathlib

/-!
Verification development for the runtime composition layer of the
DoNewsCode/std framework: the capability `Container` (package `container`)
and the resource-provider builders of packages `otetcd` and `otredis`,
together with the generic named resource factory they share.

Go code is shallowly embedded: host objects that the Go code mutates
through pointers are modelled state-passingly (a callback on a host of
type `H` becomes a function `H → H`), Go slices become Lean lists, and
the goroutine-per-closer `Shutdown` is modelled as an explicit
interleaving transition system over spawn/complete events with a
`sync.WaitGroup` counter.
-/

namespace DoNews

/-! ## The Shutdown execution model (package container, `Container.Shutdown`)

The Go source is

    func (c *Container) Shutdown() {
      var wg sync.WaitGroup
      for _, p := range c.closerProviders {
        wg.Add(1)
        p := p
        go func() { p(); wg.Done() }()
      }
      wg.Wait()
    }

A state records how far the main goroutine's loop has progressed (the
number of closers already `Add`-ed and spawned) and which spawned tasks
have completed, in completion order.  Completing task `i` runs closer
`i` and calls `wg.Done()`; the WaitGroup counter is the number of
spawned-but-not-yet-completed tasks.  `wg.Wait` is called after the
loop (all `K` closers spawned) and returns once the counter is zero. -/

structure ShutState where
  spawned : Nat
  done : List Nat
deriving DecidableEq, Repr

inductive ShutEvent where
  | spawn
  | complete (i : Nat)
deriving DecidableEq, Repr

/-- One scheduler step of the Shutdown execution with `K` registered
closers: either the main goroutine performs one loop iteration
(`wg.Add(1)` plus spawning the next closer's goroutine), or a spawned,
not-yet-finished goroutine `i` runs its closer and calls `wg.Done()`.
Invalid events yield `none`. -/
def shutStep (K : Nat) (s : ShutState) : ShutEvent → Option ShutState
  | .spawn =>
    if s.spawned < K then some { s with spawned := s.spawned + 1 } else none
  | .complete i =>
    if i < s.spawned ∧ i ∉ s.done then some { s with done := s.done ++ [i] }
    else none

/-- Run a sequence of scheduler events from a given state. -/
def shutRunFrom (K : Nat) : ShutState → List ShutEvent → Option ShutState
  | s, [] => some s
  | s, e :: evs =>
    match shutStep K s e with
    | none => none
    | some s2 => shutRunFrom K s2 evs

/-- Run a sequence of scheduler events from the initial state (no closer
spawned, none completed). -/
def shutRun (K : Nat) (evs : List ShutEvent) : Option ShutState :=
  shutRunFrom K ⟨0, []⟩ evs

/-- The `sync.WaitGroup` counter: incremented by each `wg.Add(1)`,
decremented by each `wg.Done()`. -/
def ShutState.counter (s : ShutState) : Nat := s.spawned - s.done.length

/-- `wg.Wait()` (called by `Shutdown` after the spawn loop, so after all
`K` closers are spawned) returns exactly when the counter is zero. -/
def waitReturns (K : Nat) (s : ShutState) : Prop :=
  s.spawned = K ∧ s.counter = 0

instance (K : Nat) (s : ShutState) : Decidable (waitReturns K s) := by
  unfold waitReturns; exact inferInstance

/-! ## The capability container (package container) -/

/-- The capability record of a registered module value: for each of the
six capability interfaces (`HttpProvider`, `GrpcProvider`,
`CronProvider`, `RunProvider`, `CommandProvider`, `CloserProvider`),
`some` holds the bound provider method when the module's type satisfies
the interface.  Type parameters stand for the host types: `R` for
`*mux.Router`, `G` for `*grpc.Server`, `C` for `*cron.Cron`, `K` for
`*cobra.Command`, `A` for `*run.Group`, and `Z` for the type of a bound
`func()` closer action. -/
structure ModuleVal (R G C K A Z : Type) where
  provideHttp : Option (R → R)
  provideGrpc : Option (G → G)
  provideCron : Option (C → C)
  provideRunGroup : Option (A → A)
  provideCommand : Option (K → K)
  provideCloser : Option Z

/-- A value passed to `Container.AddModule`: either a bare `func()`
value (matched by the first type assertion `module.(func())` — in Go
only the unnamed function type matches, and it can carry no methods, so
it satisfies no capability interface), or any other value together with
its capability record. -/
inductive GoModule (R G C K A Z : Type) where
  | bareFunc (f : Z)
  | value (v : ModuleVal R G C K A Z)

/-- The container: six ordered capability callback slices plus the
generic `ifilter.Collection` of all registered modules, with fields in
source order. -/
structure Container (R G C K A Z : Type) where
  httpProviders : List (R → R)
  grpcProviders : List (G → G)
  closerProviders : List Z
  runProviders : List (A → A)
  modules : List (GoModule R G C K A Z)
  cronProviders : List (C → C)
  commandProviders : List (K → K)

/-- The zero value of the `Container` struct. -/
def Container.empty {R G C K A Z : Type} : Container R G C K A Z :=
  ⟨[], [], [], [], [], [], []⟩

/-- `Container.AddModule`.  A bare `func()` is appended to the closer
slice and the method returns early (so it is appended to no other slice
and not to `modules`).  Any other module value is appended to exactly
the capability slices whose interface it satisfies (the six independent
`if` statements, in source order: http, grpc, cron, run, command,
closer) and always to the generic `modules` collection. -/
def Container.AddModule {R G C K A Z : Type} (c : Container R G C K A Z)
    (m : GoModule R G C K A Z) : Container R G C K A Z :=
  match m with
  | .bareFunc f => { c with closerProviders := c.closerProviders ++ [f] }
  | .value v =>
    { httpProviders := c.httpProviders ++ v.provideHttp.toList
      grpcProviders := c.grpcProviders ++ v.provideGrpc.toList
      closerProviders := c.closerProviders ++ v.provideCloser.toList
      runProviders := c.runProviders ++ v.provideRunGroup.toList
      modules := c.modules ++ [.value v]
      cronProviders := c.cronProviders ++ v.provideCron.toList
      commandProviders := c.commandProviders ++ v.provideCommand.toList }

/-- `Container.ApplyRouter`: hand the router to every registered
`HttpProvider` callback in slice order.  The router mutations are
threaded through a fold; the method reads, and does not write, the
container, which is returned alongside. -/
def Container.ApplyRouter {R G C K A Z : Type} (c : Container R G C K A Z)
    (router : R) : R × Container R G C K A Z :=
  (c.httpProviders.foldl (fun r p => p r) router, c)

/-- `Container.ApplyGRPCServer`: hand the gRPC server to every
registered `GrpcProvider` callback in slice order. -/
def Container.ApplyGRPCServer {R G C K A Z : Type} (c : Container R G C K A Z)
    (server : G) : G × Container R G C K A Z :=
  (c.grpcProviders.foldl (fun s p => p s) server, c)

/-- `Container.ApplyCron`: hand the crontab to every registered
`CronProvider` callback in slice order. -/
def Container.ApplyCron {R G C K A Z : Type} (c : Container R G C K A Z)
    (crontab : C) : C × Container R G C K A Z :=
  (c.cronProviders.foldl (fun t p => p t) crontab, c)

/-- `Container.ApplyRootCommand`: hand the root command to every
registered `CommandProvider` callback in slice order. -/
def Container.ApplyRootCommand {R G C K A Z : Type} (c : Container R G C K A Z)
    (command : K) : K × Container R G C K A Z :=
  (c.commandProviders.foldl (fun k p => p k) command, c)

/-- `Container.ApplyRunGroup`: hand the run group to every registered
`RunProvider` callback in slice order. -/
def Container.ApplyRunGroup {R G C K A Z : Type} (c : Container R G C K A Z)
    (g : A) : A × Container R G C K A Z :=
  (c.runProviders.foldl (fun x p => p x) g, c)

/-- `Container.Modules`: return the generic module collection; the
container is read, not written. -/
def Container.Modules {R G C K A Z : Type} (c : Container R G C K A Z) :
    List (GoModule R G C K A Z) × Container R G C K A Z :=
  (c.modules, c)

/-- `Container.Shutdown`, as the interleaving transition system over the
container's registered closers: the result of running a given event
schedule, paired with the (unmodified) container. -/
def Container.Shutdown {R G C K A Z : Type} (c : Container R G C K A Z)
    (evs : List ShutEvent) : Option ShutState × Container R G C K A Z :=
  (shutRun c.closerProviders.length evs, c)

/-- Register a list of modules one at a time, in order. -/
def registerAll {R G C K A Z : Type} (ms : List (GoModule R G C K A Z))
    (c : Container R G C K A Z) : Container R G C K A Z :=
  ms.foldl Container.AddModule c

/-! ### Capability extraction, for stating which callbacks a
registration sequence produces -/

/-- The `HttpProvider` callback contributed by a registered module, if
any. -/
def httpCb {R G C K A Z : Type} : GoModule R G C K A Z → Option (R → R)
  | .bareFunc _ => none
  | .value v => v.provideHttp

/-- The `GrpcProvider` callback contributed by a registered module, if
any. -/
def grpcCb {R G C K A Z : Type} : GoModule R G C K A Z → Option (G → G)
  | .bareFunc _ => none
  | .value v => v.provideGrpc

/-- The `CronProvider` callback contributed by a registered module, if
any. -/
def cronCb {R G C K A Z : Type} : GoModule R G C K A Z → Option (C → C)
  | .bareFunc _ => none
  | .value v => v.provideCron

/-- The `RunProvider` callback contributed by a registered module, if
any. -/
def runCb {R G C K A Z : Type} : GoModule R G C K A Z → Option (A → A)
  | .bareFunc _ => none
  | .value v => v.provideRunGroup

/-- The `CommandProvider` callback contributed by a registered module,
if any. -/
def cmdCb {R G C K A Z : Type} : GoModule R G C K A Z → Option (K → K)
  | .bareFunc _ => none
  | .value v => v.provideCommand

/-- The closer contributed by a registered module, if any: a bare
`func()` contributes itself, any other value its bound
`ProvideCloser`. -/
def closerCb {R G C K A Z : Type} : GoModule R G C K A Z → Option Z
  | .bareFunc f => some f
  | .value v => v.provideCloser

/-- The entry a registration adds to the generic `modules` collection,
if any: a bare `func()` adds none (the early return), every other
module adds itself. -/
def moduleEntry {R G C K A Z : Type} :
    GoModule R G C K A Z → Option (GoModule R G C K A Z)
  | .bareFunc _ => none
  | .value v => some (.value v)

/-- Invariant of every reachable Shutdown state: no more than `K` tasks
spawned, no task completed twice, and only spawned tasks completed. -/
def ShutInv (K : Nat) (s : ShutState) : Prop :=
  s.spawned ≤ K ∧ s.done.Nodup ∧ ∀ i ∈ s.done, i < s.spawned

/-- A module value used to observe dispatch concretely: each selected
capability callback appends the module's tag `i` to a list-valued host,
so the host's final value records which callbacks ran, in order. -/
def tagVal (hHttp hGrpc hCron hRun hCmd : Bool) (i : Nat) :
    ModuleVal (List Nat) (List Nat) (List Nat) (List Nat) (List Nat) Unit :=
  { provideHttp := if hHttp then some (fun t => t ++ [i]) else none
    provideGrpc := if hGrpc then some (fun t => t ++ [i]) else none
    provideCron := if hCron then some (fun t => t ++ [i]) else none
    provideRunGroup := if hRun then some (fun t => t ++ [i]) else none
    provideCommand := if hCmd then some (fun t => t ++ [i]) else none
    provideCloser := none }

/-- A container holding the same closer twice, registered through two
bare `func()` registrations. -/
def twoClosers {Z : Type} (z : Z) : Container Unit Unit Unit Unit Unit Z :=
  (Container.empty.AddModule (GoModule.bareFunc z)).AddModule (GoModule.bareFunc z)

/-- A concrete container with two distinguishable closers, used to
exercise a concrete Shutdown schedule. -/
def cShut : Container Nat Nat Nat Nat Nat Nat :=
  (Container.empty.AddModule (GoModule.bareFunc 10)).AddModule (GoModule.bareFunc 20)

/-! ## The generic named resource factory (packages di / async)

Only the factory's callers live under src/; the factory itself is
modelled from the spec. -/

namespace di

/-- `di.Pair` (equally `async.Pair`): the constructed connection
together with its teardown action. -/
structure Pair (I Z : Type) where
  conn : I
  closer : Z

/-- Modelled from the spec: the generic Named Resource Factory
(`di.Factory` as used by package otetcd, `async.Factory` as used by
package otredis), whose implementation is not under src/.  It owns the
build function `name → (instance, teardown, error)` and the mapping
from logical name to the memoized constructed pair. -/
structure Factory (I Z : Type) where
  builder : String → Except String (Pair I Z)
  cache : List (String × Pair I Z)

/-- Modelled from the spec: `di.NewFactory` / `async.NewFactory` wraps
a build function into a factory with an empty memoization map. -/
def NewFactory {I Z : Type} (builder : String → Except String (Pair I Z)) :
    Factory I Z :=
  { builder := builder, cache := [] }

/-- Lookup of a logical name in the memoization map. -/
def lookupName {I Z : Type} : List (String × Pair I Z) → String → Option (Pair I Z)
  | [], _ => none
  | (k, pr) :: rest, name => if k = name then some pr else lookupName rest name

/-- Modelled from the spec: the generic `Make` — if an instance for
`name` is memoized, return it with no error; otherwise invoke the
builder with `name`; on success memoize the pair under `name` and
return the instance; on failure return the builder's error without
memoizing anything. -/
def Factory.Make {I Z : Type} (f : Factory I Z) (name : String) :
    Except String I × Factory I Z :=
  match lookupName f.cache name with
  | some pr => (.ok pr.conn, f)
  | none =>
    match f.builder name with
    | .error e => (.error e, f)
    | .ok pr => (.ok pr.conn, { f with cache := f.cache ++ [(name, pr)] })

end di

/-- The dynamic type of an instance handed out by the generic
`interface{}`-typed factory: one of the two concrete client types the
typed wrappers expect, with payloads `ρ` (a `redis.UniversalClient`)
and `ε` (a `*clientv3.Client`). -/
inductive GoVal (ρ ε : Type) where
  | redisClient (c : ρ)
  | etcdClient (c : ε)
deriving DecidableEq

/-- Outcome of a typed wrapper `Make` call: a returned instance, a
returned error (with nil instance), or a Go runtime panic. -/
inductive TypedResult (α : Type) where
  | ok (a : α)
  | err (e : String)
  | panicked
deriving DecidableEq

/-- Whether a typed `Make` outcome is an error return (as opposed to a
returned instance or a panic). -/
def TypedResult.isErrReturn {α : Type} : TypedResult α → Bool
  | .err _ => true
  | _ => false

namespace otredis

/-- `redis.UniversalOptions`, reduced to the fields this provider ever
reads (`Addrs` and `DB`, read only by the tracing hook); all remaining
fields are carried opaquely into the client library and never branched
on. -/
structure RedisOptions where
  addrs : List String
  db : Int

/-- The builder closure `ProvideRedis` hands to `async.NewFactory`:
look the name up in the unmarshalled `redis` configuration map — an
absent name is a configuration-not-found error, whatever the name (no
default fallback exists here); otherwise let the optional interceptor
amend the options, construct the client with
`redis.NewUniversalClient` (which cannot fail), optionally attach the
tracing hook (which does not alter the returned pair), and return the
client with its closer. -/
def build {ρ Z : Type} (newUniversalClient : RedisOptions → ρ) (closeOf : ρ → Z)
    (interceptor : Option (String → RedisOptions → RedisOptions))
    (dbConfs : String → Option RedisOptions) (name : String) :
    Except String (di.Pair ρ Z) :=
  match dbConfs name with
  | none => .error ("redis configuration " ++ name ++ " not valid")
  | some conf =>
    let conf := match interceptor with
      | some ic => ic name conf
      | none => conf
    let client := newUniversalClient conf
    .ok { conn := client, closer := closeOf client }

/-- `otredis.Factory.Make`: call the generic factory; a generic error
is returned as a nil client with that error; otherwise the unchecked
type assertion `client.(redis.UniversalClient)` yields the client when
the dynamic type matches and panics otherwise. -/
def FactoryMake {ρ ε Z : Type} (f : di.Factory (GoVal ρ ε) Z) (name : String) :
    TypedResult ρ × di.Factory (GoVal ρ ε) Z :=
  match f.Make name with
  | (.error e, f2) => (.err e, f2)
  | (.ok v, f2) =>
    match v with
    | .redisClient cl => (.ok cl, f2)
    | _ => (.panicked, f2)

end otredis

namespace otetcd

/-- The `Option` configuration struct of package otetcd, reduced to its
`Endpoints` field; the remaining thirteen fields are copied verbatim
into the `clientv3.Config` and never branched on. -/
structure EtcdOption where
  endpoints : List String

/-- `clientv3.Config`, likewise reduced to its endpoints; the dial
options appended when a tracer is present only wrap the transport and
are not observable at this level. -/
structure Clientv3Config where
  endpoints : List String

/-- The builder closure `provideFactory` hands to `di.NewFactory`:
look the name up in the unmarshalled `etcd` configuration map; if
absent and the name is not "default", fail with a
configuration-not-found error; if absent and the name is "default",
fall back to the `ETCD_ADDR` environment variable when it is set and
non-empty (`etcdAddr = some addr`), else to the hard-coded endpoint
127.0.0.1:6379.  Then build the `clientv3.Config`, let the optional
interceptor amend it, and construct the client by
`client, _ := clientv3.New(co)` — the construction error is discarded,
so when construction fails the returned pair holds `none` (a nil
client) and the builder still reports success. -/
def build {ε Z : Type} (clientv3New : Clientv3Config → Except String ε)
    (closeOf : Option ε → Z) (etcdAddr : Option String)
    (interceptor : Option (String → Clientv3Config → Clientv3Config))
    (dbConfs : String → Option EtcdOption) (name : String) :
    Except String (di.Pair (Option ε) Z) :=
  let resolved : Option EtcdOption :=
    match dbConfs name with
    | some conf => some conf
    | none =>
      if name = "default" then
        some (match etcdAddr with
              | some addr => { endpoints := [addr] }
              | none => { endpoints := ["127.0.0.1:6379"] })
      else none
  match resolved with
  | none => .error ("etcd configuration " ++ name ++ " not valid")
  | some conf =>
    let co : Clientv3Config := { endpoints := conf.endpoints }
    let co := match interceptor with
      | some ic => ic name co
      | none => co
    let client : Option ε := (clientv3New co).toOption
    .ok { conn := client, closer := closeOf client }

/-- The `"default"` entry exported by `provideConfig` under the `etcd`
key, reduced to its endpoints. -/
def provideConfigDefault : EtcdOption := { endpoints := ["127.0.0.1:2379"] }

/-- `otetcd.Factory.Make`: call the generic factory; a generic error is
returned as a nil client with that error; otherwise the unchecked type
assertion `client.(*clientv3.Client)` yields the client when the
dynamic type matches and panics otherwise. -/
def FactoryMake {ρ ε Z : Type} (f : di.Factory (GoVal ρ ε) Z) (name : String) :
    TypedResult ε × di.Factory (GoVal ρ ε) Z :=
  match f.Make name with
  | (.error e, f2) => (.err e, f2)
  | (.ok v, f2) =>
    match v with
    | .etcdClient cl => (.ok cl, f2)
    | _ => (.panicked, f2)

end otetcd

/-- A generic factory whose builder always fails. -/
def errFactory : di.Factory (GoVal Nat Nat) Unit :=
  di.NewFactory (fun _ => Except.error "boom")

/-- A generic factory whose builder yields an instance of the wrong
dynamic type for the redis wrapper. -/
def mismatchFactory : di.Factory (GoVal Nat Nat) Unit :=
  di.NewFactory (fun _ => Except.ok { conn := GoVal.etcdClient 1, closer := () })

/-- `mismatchFactory` after its first successful `Make "a"` memoized
the built pair. -/
def mismatchFactory2 : di.Factory (GoVal Nat Nat) Unit :=
  { mismatchFactory with cache := [("a", { conn := GoVal.etcdClient 1, closer := () })] }

/-- A generic factory whose builder yields an instance of the dynamic
type the redis wrapper expects. -/
def matchFactory : di.Factory (GoVal Nat Nat) Unit :=
  di.NewFactory (fun _ => Except.ok { conn := GoVal.redisClient 2, closer := () })

/-- `matchFactory` after its first successful `Make "a"` memoized the
built pair. -/
def matchFactory2 : di.Factory (GoVal Nat Nat) Unit :=
  { matchFactory with cache := [("a", { conn := GoVal.redisClient 2, closer := () })] }

/-! ## Lemmas: what a single registration appends to each slice -/

theorem AddModule_httpProviders {R G C K A Z : Type} (c : Container R G C K A Z)
    (m : GoModule R G C K A Z) :
    (c.AddModule m).httpProviders = c.httpProviders ++ (httpCb m).toList := by
  cases m <;> simp [Container.AddModule, httpCb]

theorem AddModule_grpcProviders {R G C K A Z : Type} (c : Container R G C K A Z)
    (m : GoModule R G C K A Z) :
    (c.AddModule m).grpcProviders = c.grpcProviders ++ (grpcCb m).toList := by
  cases m <;> simp [Container.AddModule, grpcCb]

theorem AddModule_cronProviders {R G C K A Z : Type} (c : Container R G C K A Z)
    (m : GoModule R G C K A Z) :
    (c.AddModule m).cronProviders = c.cronProviders ++ (cronCb m).toList := by
  cases m <;> simp [Container.AddModule, cronCb]

theorem AddModule_runProviders {R G C K A Z : Type} (c : Container R G C K A Z)
    (m : GoModule R G C K A Z) :
    (c.AddModule m).runProviders = c.runProviders ++ (runCb m).toList := by
  cases m <;> simp [Container.AddModule, runCb]

theorem AddModule_commandProviders {R G C K A Z : Type} (c : Container R G C K A Z)
    (m : GoModule R G C K A Z) :
    (c.AddModule m).commandProviders = c.commandProviders ++ (cmdCb m).toList := by
  cases m <;> simp [Container.AddModule, cmdCb]

theorem AddModule_closerProviders {R G C K A Z : Type} (c : Container R G C K A Z)
    (m : GoModule R G C K A Z) :
    (c.AddModule m).closerProviders = c.closerProviders ++ (closerCb m).toList := by
  cases m <;> simp [Container.AddModule, closerCb]

theorem AddModule_modules {R G C K A Z : Type} (c : Container R G C K A Z)
    (m : GoModule R G C K A Z) :
    (c.AddModule m).modules = c.modules ++ (moduleEntry m).toList := by
  cases m <;> simp [Container.AddModule, moduleEntry]

/-! ## Lemmas: what a registration sequence stores, slice by slice -/

theorem registerAll_httpProviders {R G C K A Z : Type}
    (ms : List (GoModule R G C K A Z)) (c : Container R G C K A Z) :
    (registerAll ms c).httpProviders = c.httpProviders ++ ms.filterMap httpCb := by
  induction ms generalizing c with
  | nil => simp [registerAll]
  | cons m ms ih =>
    have h1 : registerAll (m :: ms) c = registerAll ms (c.AddModule m) := rfl
    rw [h1, ih, AddModule_httpProviders]
    cases hm : httpCb m <;> simp [List.filterMap_cons, hm]

theorem registerAll_grpcProviders {R G C K A Z : Type}
    (ms : List (GoModule R G C K A Z)) (c : Container R G C K A Z) :
    (registerAll ms c).grpcProviders = c.grpcProviders ++ ms.filterMap grpcCb := by
  induction ms generalizing c with
  | nil => simp [registerAll]
  | cons m ms ih =>
    have h1 : registerAll (m :: ms) c = registerAll ms (c.AddModule m) := rfl
    rw [h1, ih, AddModule_grpcProviders]
    cases hm : grpcCb m <;> simp [List.filterMap_cons, hm]

theorem registerAll_cronProviders {R G C K A Z : Type}
    (ms : List (GoModule R G C K A Z)) (c : Container R G C K A Z) :
    (registerAll ms c).cronProviders = c.cronProviders ++ ms.filterMap cronCb := by
  induction ms generalizing c with
  | nil => simp [registerAll]
  | cons m ms ih =>
    have h1 : registerAll (m :: ms) c = registerAll ms (c.AddModule m) := rfl
    rw [h1, ih, AddModule_cronProviders]
    cases hm : cronCb m <;> simp [List.filterMap_cons, hm]

theorem registerAll_runProviders {R G C K A Z : Type}
    (ms : List (GoModule R G C K A Z)) (c : Container R G C K A Z) :
    (registerAll ms c).runProviders = c.runProviders ++ ms.filterMap runCb := by
  induction ms generalizing c with
  | nil => simp [registerAll]
  | cons m ms ih =>
    have h1 : registerAll (m :: ms) c = registerAll ms (c.AddModule m) := rfl
    rw [h1, ih, AddModule_runProviders]
    cases hm : runCb m <;> simp [List.filterMap_cons, hm]

theorem registerAll_commandProviders {R G C K A Z : Type}
    (ms : List (GoModule R G C K A Z)) (c : Container R G C K A Z) :
    (registerAll ms c).commandProviders = c.commandProviders ++ ms.filterMap cmdCb := by
  induction ms generalizing c with
  | nil => simp [registerAll]
  | cons m ms ih =>
    have h1 : registerAll (m :: ms) c = registerAll ms (c.AddModule m) := rfl
    rw [h1, ih, AddModule_commandProviders]
    cases hm : cmdCb m <;> simp [List.filterMap_cons, hm]

/-! ## Lemmas: concrete dispatch traces -/

theorem foldl_tag_trace (qs : List (Nat × Bool)) (t : List Nat) :
    (qs.filterMap fun q => if q.2 then some (fun s => s ++ [q.1]) else none).foldl
        (fun r p => p r) t
      = t ++ (qs.filter fun q => q.2).map fun q => q.1 := by
  induction qs generalizing t with
  | nil => simp
  | cons q qs ih =>
    cases hb : q.2 <;>
      simp [List.filterMap_cons, List.filter_cons, hb, ih, List.append_assoc]

theorem http_trace (qs : List (Nat × Bool)) :
    ((registerAll (qs.map fun q => GoModule.value (tagVal q.2 false false false false q.1))
        Container.empty).ApplyRouter []).1
      = (qs.filter fun q => q.2).map fun q => q.1 := by
  have hcb : (qs.map fun q => GoModule.value (tagVal q.2 false false false false q.1)).filterMap
        httpCb
      = qs.filterMap fun q => if q.2 then some (fun s => s ++ [q.1]) else none := by
    rw [List.filterMap_map]; rfl
  simp only [Container.ApplyRouter, registerAll_httpProviders, Container.empty, hcb]
  simpa using foldl_tag_trace qs []

theorem grpc_trace (qs : List (Nat × Bool)) :
    ((registerAll (qs.map fun q => GoModule.value (tagVal false q.2 false false false q.1))
        Container.empty).ApplyGRPCServer []).1
      = (qs.filter fun q => q.2).map fun q => q.1 := by
  have hcb : (qs.map fun q => GoModule.value (tagVal false q.2 false false false q.1)).filterMap
        grpcCb
      = qs.filterMap fun q => if q.2 then some (fun s => s ++ [q.1]) else none := by
    rw [List.filterMap_map]; rfl
  simp only [Container.ApplyGRPCServer, registerAll_grpcProviders, Container.empty, hcb]
  simpa using foldl_tag_trace qs []

theorem cron_trace (qs : List (Nat × Bool)) :
    ((registerAll (qs.map fun q => GoModule.value (tagVal false false q.2 false false q.1))
        Container.empty).ApplyCron []).1
      = (qs.filter fun q => q.2).map fun q => q.1 := by
  have hcb : (qs.map fun q => GoModule.value (tagVal false false q.2 false false q.1)).filterMap
        cronCb
      = qs.filterMap fun q => if q.2 then some (fun s => s ++ [q.1]) else none := by
    rw [List.filterMap_map]; rfl
  simp only [Container.ApplyCron, registerAll_cronProviders, Container.empty, hcb]
  simpa using foldl_tag_trace qs []

theorem run_trace (qs : List (Nat × Bool)) :
    ((registerAll (qs.map fun q => GoModule.value (tagVal false false false q.2 false q.1))
        Container.empty).ApplyRunGroup []).1
      = (qs.filter fun q => q.2).map fun q => q.1 := by
  have hcb : (qs.map fun q => GoModule.value (tagVal false false false q.2 false q.1)).filterMap
        runCb
      = qs.filterMap fun q => if q.2 then some (fun s => s ++ [q.1]) else none := by
    rw [List.filterMap_map]; rfl
  simp only [Container.ApplyRunGroup, registerAll_runProviders, Container.empty, hcb]
  simpa using foldl_tag_trace qs []

theorem command_trace (qs : List (Nat × Bool)) :
    ((registerAll (qs.map fun q => GoModule.value (tagVal false false false false q.2 q.1))
        Container.empty).ApplyRootCommand []).1
      = (qs.filter fun q => q.2).map fun q => q.1 := by
  have hcb : (qs.map fun q => GoModule.value (tagVal false false false false q.2 q.1)).filterMap
        cmdCb
      = qs.filterMap fun q => if q.2 then some (fun s => s ++ [q.1]) else none := by
    rw [List.filterMap_map]; rfl
  simp only [Container.ApplyRootCommand, registerAll_commandProviders, Container.empty, hcb]
  simpa using foldl_tag_trace qs []

/-! ## Lemmas: the Shutdown counting join -/

theorem shutInv_init (K : Nat) : ShutInv K ⟨0, []⟩ :=
  ⟨Nat.zero_le _, List.nodup_nil, by intro i hi; cases hi⟩

theorem shutStep_inv {K : Nat} {s s2 : ShutState} {e : ShutEvent}
    (hinv : ShutInv K s) (hstep : shutStep K s e = some s2) : ShutInv K s2 := by
  obtain ⟨hK, hnd, hlt⟩ := hinv
  cases e with
  | spawn =>
    by_cases h : s.spawned < K
    · simp only [shutStep, if_pos h, Option.some.injEq] at hstep
      subst hstep
      exact ⟨h, hnd, fun i hi => Nat.lt_succ_of_lt (hlt i hi)⟩
    · simp [shutStep, if_neg h] at hstep
  | complete i =>
    by_cases h : i < s.spawned ∧ i ∉ s.done
    · simp only [shutStep, if_pos h, Option.some.injEq] at hstep
      subst hstep
      refine ⟨hK, ?_, ?_⟩
      · simp [List.nodup_append, hnd, h.2]
      · intro j hj
        rcases List.mem_append.mp hj with hj | hj
        · exact hlt j hj
        · simp only [List.mem_singleton] at hj
          subst hj
          exact h.1
    · simp [shutStep, if_neg h] at hstep

theorem shutRunFrom_inv {K : Nat} {evs : List ShutEvent} {s s2 : ShutState}
    (hinv : ShutInv K s) (hrun : shutRunFrom K s evs = some s2) : ShutInv K s2 := by
  induction evs generalizing s with
  | nil =>
    simp only [shutRunFrom, Option.some.injEq] at hrun
    subst hrun
    exact hinv
  | cons e evs ih =>
    simp only [shutRunFrom] at hrun
    cases hstep : shutStep K s e with
    | none => rw [hstep] at hrun; cases hrun
    | some s1 =>
      rw [hstep] at hrun
      exact ih (shutStep_inv hinv hstep) hrun

theorem shutdown_join {K : Nat} {evs : List ShutEvent} {s : ShutState}
    (hrun : shutRun K evs = some s) (hwait : waitReturns K s) :
    s.spawned = K ∧ s.done.length = K ∧ s.done.Nodup ∧
      ∀ i, i < K → s.done.count i = 1 := by
  obtain ⟨hK, hnd, hlt⟩ := shutRunFrom_inv (shutInv_init K) hrun
  obtain ⟨hsp, hcnt⟩ := hwait
  simp only [ShutState.counter] at hcnt
  have hle : s.spawned ≤ s.done.length := by omega
  have hsub : s.done.toFinset ⊆ Finset.range s.spawned := by
    intro i hi
    exact Finset.mem_range.mpr (hlt i (List.mem_toFinset.mp hi))
  have hcard : s.done.toFinset.card = s.done.length :=
    List.toFinset_card_of_nodup hnd
  have hlen_le : s.done.length ≤ s.spawned := by
    have h2 := Finset.card_le_card hsub
    rwa [hcard, Finset.card_range] at h2
  have hlen : s.done.length = K := by omega
  have heq : s.done.toFinset = Finset.range s.spawned :=
    Finset.eq_of_subset_of_card_le hsub
      (by rw [hcard, Finset.card_range]; omega)
  refine ⟨hsp, hlen, hnd, fun i hiK => ?_⟩
  have hmem : i ∈ s.done := by
    have hif : i ∈ s.done.toFinset := by
      rw [heq]
      exact Finset.mem_range.mpr (by omega)
    exact List.mem_toFinset.mp hif
  exact List.count_eq_one_of_mem hnd hmem

theorem twoClosers_closerProviders {Z : Type} (z : Z) :
    (twoClosers z).closerProviders = [z, z] := rfl

theorem getD_twoClosers {Z : Type} (z : Z) (j : Nat) :
    (twoClosers z).closerProviders.getD j z = z := by
  match j with
  | 0 => rfl
  | 1 => rfl
  | n + 2 => rfl

theorem map_getD_twoClosers {Z : Type} (z : Z) (ds : List Nat) :
    ds.map (fun j => (twoClosers z).closerProviders.getD j z)
      = List.replicate ds.length z := by
  induction ds with
  | nil => rfl
  | cons j js ih =>
    rw [List.map_cons, getD_twoClosers, ih, List.length_cons, List.replicate_succ]

/-! ## Claim theorems: the capability container -/

/-- Claim C1: for every sequence of module registrations and every
capability, the corresponding Apply operation invokes exactly the
callbacks of the modules that satisfy that capability, in registration
order, exactly once per Apply call, passing the given host object to
each.  The first five conjuncts state this generally: the host returned
by each Apply is the in-order fold over the given host of exactly the
satisfying modules' callbacks.  The last five conjuncts pin down
order/multiplicity observationally: with tagged list-accumulating
callbacks, the trace left on the host is exactly the tag list of the
satisfying registrations, in registration order, one occurrence per
registration. -/
theorem C1_apply_dispatches_in_registration_order
    {R G C K A Z : Type} (ms : List (GoModule R G C K A Z))
    (r : R) (g : G) (t : C) (k : K) (a : A) (qs : List (Nat × Bool)) :
    ((registerAll ms Container.empty).ApplyRouter r).1
        = (ms.filterMap httpCb).foldl (fun h p => p h) r
  ∧ ((registerAll ms Container.empty).ApplyGRPCServer g).1
        = (ms.filterMap grpcCb).foldl (fun h p => p h) g
  ∧ ((registerAll ms Container.empty).ApplyCron t).1
        = (ms.filterMap cronCb).foldl (fun h p => p h) t
  ∧ ((registerAll ms Container.empty).ApplyRootCommand k).1
        = (ms.filterMap cmdCb).foldl (fun h p => p h) k
  ∧ ((registerAll ms Container.empty).ApplyRunGroup a).1
        = (ms.filterMap runCb).foldl (fun h p => p h) a
  ∧ ((registerAll (qs.map fun q => GoModule.value (tagVal q.2 false false false false q.1))
        Container.empty).ApplyRouter []).1 = (qs.filter fun q => q.2).map (fun q => q.1)
  ∧ ((registerAll (qs.map fun q => GoModule.value (tagVal false q.2 false false false q.1))
        Container.empty).ApplyGRPCServer []).1 = (qs.filter fun q => q.2).map (fun q => q.1)
  ∧ ((registerAll (qs.map fun q => GoModule.value (tagVal false false q.2 false false q.1))
        Container.empty).ApplyCron []).1 = (qs.filter fun q => q.2).map (fun q => q.1)
  ∧ ((registerAll (qs.map fun q => GoModule.value (tagVal false false false false q.2 q.1))
        Container.empty).ApplyRootCommand []).1 = (qs.filter fun q => q.2).map (fun q => q.1)
  ∧ ((registerAll (qs.map fun q => GoModule.value (tagVal false false false q.2 false q.1))
        Container.empty).ApplyRunGroup []).1 = (qs.filter fun q => q.2).map (fun q => q.1) := by
  refine ⟨?_, ?_, ?_, ?_, ?_, http_trace qs, grpc_trace qs, cron_trace qs,
    command_trace qs, run_trace qs⟩
  · simp [Container.ApplyRouter, registerAll_httpProviders, Container.empty]
  · simp [Container.ApplyGRPCServer, registerAll_grpcProviders, Container.empty]
  · simp [Container.ApplyCron, registerAll_cronProviders, Container.empty]
  · simp [Container.ApplyRootCommand, registerAll_commandProviders, Container.empty]
  · simp [Container.ApplyRunGroup, registerAll_runProviders, Container.empty]

/-- Claim C2, counterexample: a module supplied as a bare zero-argument
teardown function is NOT appended to the generic module collection —
`AddModule` returns early after appending it to the closer slice, so
`modules` stays empty while the closer slice received the function. -/
theorem C2_counterexample_bare_closer_not_in_modules :
    ((Container.empty : Container Nat Nat Nat Nat Nat Nat).AddModule
        (GoModule.bareFunc 7)).modules = []
  ∧ ((Container.empty : Container Nat Nat Nat Nat Nat Nat).AddModule
        (GoModule.bareFunc 7)).closerProviders = [7] :=
  ⟨rfl, rfl⟩

/-- Claim C2, amended: every module that is not a bare zero-argument
function is appended to the generic module collection; a bare
zero-argument teardown function is appended only to the closer slice
and not to the generic module collection, so it differs from a module
satisfying only the closer capability, which is appended to both. -/
theorem C2_amended_registration_storage {R G C K A Z : Type}
    (c : Container R G C K A Z) (v : ModuleVal R G C K A Z) (f z : Z) :
    (c.AddModule (.value v)).modules = c.modules ++ [GoModule.value v]
  ∧ (c.AddModule (.bareFunc f)).modules = c.modules
  ∧ (c.AddModule (.bareFunc f)).closerProviders = c.closerProviders ++ [f]
  ∧ (c.AddModule (.value ⟨none, none, none, none, none, some z⟩)).closerProviders
      = c.closerProviders ++ [z]
  ∧ (c.AddModule (.value ⟨none, none, none, none, none, some z⟩)).modules
      = c.modules ++ [GoModule.value ⟨none, none, none, none, none, some z⟩] := by
  refine ⟨?_, rfl, rfl, ?_, ?_⟩ <;> simp [Container.AddModule]

/-- Claim C3: for a container with K registered closers, every
completed Shutdown execution (any interleaving accepted by the
transition system after which `wg.Wait` returns) spawned exactly one
task per closer, ran every closer exactly once, and `Wait` returned
only after all K closer tasks completed; the last two conjuncts show
two schedules with different completion orders are both accepted (no
ordering guarantee between closers). -/
theorem C3_shutdown_counting_join {R G C K A Z : Type}
    (c : Container R G C K A Z) (evs : List ShutEvent) (s : ShutState)
    (hrun : (c.Shutdown evs).1 = some s)
    (hwait : waitReturns c.closerProviders.length s) :
    s.spawned = c.closerProviders.length
  ∧ s.done.length = c.closerProviders.length
  ∧ (∀ i, i < c.closerProviders.length → s.done.count i = 1)
  ∧ shutRun 2 [ShutEvent.spawn, ShutEvent.spawn, ShutEvent.complete 0, ShutEvent.complete 1]
      = some ⟨2, [0, 1]⟩
  ∧ shutRun 2 [ShutEvent.spawn, ShutEvent.spawn, ShutEvent.complete 1, ShutEvent.complete 0]
      = some ⟨2, [1, 0]⟩ := by
  obtain ⟨h1, h2, _, h4⟩ := shutdown_join hrun hwait
  exact ⟨h1, h2, h4, by decide, by decide⟩

/-- Witness for C3: a concrete container with two closers and a
concrete complete schedule (completion order reversed against spawn
order), on which the hypotheses hold and all tasks completed. -/
theorem C3_shutdown_counting_join_witness :
    (cShut.Shutdown
        [ShutEvent.spawn, ShutEvent.spawn, ShutEvent.complete 1, ShutEvent.complete 0]).1
      = some ⟨2, [1, 0]⟩
  ∧ waitReturns cShut.closerProviders.length ⟨2, [1, 0]⟩
  ∧ (⟨2, [1, 0]⟩ : ShutState).done.length = cShut.closerProviders.length := by
  refine ⟨by decide, by decide, ?_⟩
  exact (C3_shutdown_counting_join cShut
    [ShutEvent.spawn, ShutEvent.spawn, ShutEvent.complete 1, ShutEvent.complete 0]
    ⟨2, [1, 0]⟩ (by decide) (by decide)).2.1

/-- Claim C7: a module satisfying several capabilities is classified
under each independently — each capability slice of the container after
`AddModule` is extended by exactly that capability's bound callback,
regardless of the other capabilities (first six conjuncts) — and a
module satisfying both the HTTP and the cron capability is dispatched
by both `ApplyRouter` and `ApplyCron` (last two conjuncts). -/
theorem C7_independent_capabilities {R G C K A Z : Type}
    (c : Container R G C K A Z) (v : ModuleVal R G C K A Z) (i : Nat) :
    (c.AddModule (.value v)).httpProviders = c.httpProviders ++ v.provideHttp.toList
  ∧ (c.AddModule (.value v)).grpcProviders = c.grpcProviders ++ v.provideGrpc.toList
  ∧ (c.AddModule (.value v)).cronProviders = c.cronProviders ++ v.provideCron.toList
  ∧ (c.AddModule (.value v)).runProviders = c.runProviders ++ v.provideRunGroup.toList
  ∧ (c.AddModule (.value v)).commandProviders
      = c.commandProviders ++ v.provideCommand.toList
  ∧ (c.AddModule (.value v)).closerProviders = c.closerProviders ++ v.provideCloser.toList
  ∧ ((registerAll [GoModule.value (tagVal true false true false false i)]
        Container.empty).ApplyRouter []).1 = [i]
  ∧ ((registerAll [GoModule.value (tagVal true false true false false i)]
        Container.empty).ApplyCron []).1 = [i] := by
  refine ⟨rfl, rfl, rfl, rfl, rfl, rfl, ?_, ?_⟩ <;>
    simp [registerAll, Container.AddModule, Container.empty, tagVal,
      Container.ApplyRouter, Container.ApplyCron]

/-- Claim C8: every dispatch operation returns the container unchanged;
the six callback slices and the module collection are identical before
and after any Apply, Shutdown, or Modules call.  Only `AddModule`
mutates the container (last conjunct). -/
theorem C8_dispatch_leaves_container_unchanged {R G C K A Z : Type}
    (c : Container R G C K A Z) (r : R) (g : G) (t : C) (k : K) (a : A)
    (evs : List ShutEvent) :
    (c.ApplyRouter r).2 = c
  ∧ (c.ApplyGRPCServer g).2 = c
  ∧ (c.ApplyCron t).2 = c
  ∧ (c.ApplyRootCommand k).2 = c
  ∧ (c.ApplyRunGroup a).2 = c
  ∧ c.Modules.2 = c
  ∧ (c.Shutdown evs).2 = c
  ∧ ∃ m : GoModule Unit Unit Unit Unit Unit Unit,
      (Container.empty.AddModule m) ≠ Container.empty := by
  refine ⟨rfl, rfl, rfl, rfl, rfl, rfl, rfl, ⟨GoModule.bareFunc (), ?_⟩⟩
  intro h
  have h2 := congrArg Container.closerProviders h
  simp [Container.AddModule, Container.empty] at h2

/-- Claim C9: registration performs no deduplication — registering the
same module value twice appends its HTTP callback and its closer twice
(first two conjuncts); a subsequent `ApplyRouter` invokes the module's
callback twice (third conjunct); and every completed Shutdown of a
container holding the same closer twice runs that closer twice (last
conjunct). -/
theorem C9_no_deduplication {R G C K A Z : Type} (c : Container R G C K A Z)
    (p : R → R) (z0 : Z) (i : Nat) :
    ((c.AddModule (GoModule.value ⟨some p, none, none, none, none, some z0⟩)).AddModule
        (GoModule.value ⟨some p, none, none, none, none, some z0⟩)).httpProviders
      = c.httpProviders ++ [p, p]
  ∧ ((c.AddModule (GoModule.value ⟨some p, none, none, none, none, some z0⟩)).AddModule
        (GoModule.value ⟨some p, none, none, none, none, some z0⟩)).closerProviders
      = c.closerProviders ++ [z0, z0]
  ∧ ((registerAll [GoModule.value (tagVal true false false false false i),
                   GoModule.value (tagVal true false false false false i)]
        Container.empty).ApplyRouter []).1 = [i, i]
  ∧ ∀ evs s, shutRun (twoClosers z0).closerProviders.length evs = some s →
      waitReturns (twoClosers z0).closerProviders.length s →
      s.done.map (fun j => (twoClosers z0).closerProviders.getD j z0) = [z0, z0] := by
  refine ⟨?_, ?_, ?_, ?_⟩
  · simp [Container.AddModule]
  · simp [Container.AddModule]
  · simp [registerAll, Container.AddModule, Container.empty, tagVal,
      Container.ApplyRouter]
  · intro evs s hrun hwait
    obtain ⟨-, hlen, -, -⟩ := shutdown_join hrun hwait
    rw [map_getD_twoClosers, hlen]
    rfl

/-- Witness for C9: a concrete complete Shutdown schedule of the
doubled-closer container, on which the hypotheses hold and the closer
payload 5 is run twice. -/
theorem C9_no_deduplication_witness :
    shutRun (twoClosers 5).closerProviders.length
        [ShutEvent.spawn, ShutEvent.spawn, ShutEvent.complete 0, ShutEvent.complete 1]
      = some ⟨2, [0, 1]⟩
  ∧ waitReturns (twoClosers 5).closerProviders.length ⟨2, [0, 1]⟩
  ∧ (([0, 1] : List Nat)).map (fun j => (twoClosers 5).closerProviders.getD j 5)
      = [5, 5] := by
  refine ⟨by decide, by decide, ?_⟩
  exact (C9_no_deduplication (Container.empty : Container Unit Unit Unit Unit Unit Nat)
    id 5 0).2.2.2
    [ShutEvent.spawn, ShutEvent.spawn, ShutEvent.complete 0, ShutEvent.complete 1]
    ⟨2, [0, 1]⟩ (by decide) (by decide)

/-! ## Claim theorems: the resource-provider builders -/

/-- Claim C4, counterexample: the redis builder has no fallback for the
name "default" — `Make("default")` against an empty configuration map
fails with a configuration-not-found error instead of falling back and
succeeding. -/
theorem C4_counterexample_redis_default_not_found :
    (di.Factory.Make (di.NewFactory (otredis.build (fun _ => ()) (fun _ => ())
        none (fun _ => none))) "default").1
      = Except.error "redis configuration default not valid" := by
  rfl

/-- Claim C4, amended: in the etcd builder, a name absent from the
parsed configuration falls back to a default configuration when the
name is "default" (and Make succeeds), and fails with a
configuration-not-found error naming the entry otherwise; the redis
builder fails with a configuration-not-found error naming the entry for
every absent name, including "default". -/
theorem C4_amended_builder_lookup {ρ ε Z : Type}
    (newU : otredis.RedisOptions → ρ) (closeOfR : ρ → Z)
    (icR : Option (String → otredis.RedisOptions → otredis.RedisOptions))
    (confsR : String → Option otredis.RedisOptions)
    (newE : otetcd.Clientv3Config → Except String ε) (closeOfE : Option ε → Z)
    (icE : Option (String → otetcd.Clientv3Config → otetcd.Clientv3Config))
    (confsE : String → Option otetcd.EtcdOption)
    (env : Option String) (name : String) :
    (confsE name = none → name ≠ "default" →
      (di.Factory.Make (di.NewFactory (otetcd.build newE closeOfE env icE confsE))
          name).1
        = Except.error ("etcd configuration " ++ name ++ " not valid"))
  ∧ (confsE "default" = none →
      ∃ cl, (di.Factory.Make (di.NewFactory (otetcd.build newE closeOfE env icE confsE))
          "default").1 = Except.ok cl)
  ∧ (confsR name = none →
      (di.Factory.Make (di.NewFactory (otredis.build newU closeOfR icR confsR))
          name).1
        = Except.error ("redis configuration " ++ name ++ " not valid")) := by
  refine ⟨?_, ?_, ?_⟩
  · intro hconf hname
    have hb : otetcd.build newE closeOfE env icE confsE name
        = Except.error ("etcd configuration " ++ name ++ " not valid") := by
      simp [otetcd.build, hconf, hname]
    simp [di.Factory.Make, di.NewFactory, di.lookupName, hb]
  · intro hconf
    have hb : ∃ pr, otetcd.build newE closeOfE env icE confsE "default"
        = Except.ok pr := by
      simp [otetcd.build, hconf]
    obtain ⟨pr, hb⟩ := hb
    exact ⟨pr.conn, by simp [di.Factory.Make, di.NewFactory, di.lookupName, hb]⟩
  · intro hconf
    have hb : otredis.build newU closeOfR icR confsR name
        = Except.error ("redis configuration " ++ name ++ " not valid") := by
      simp [otredis.build, hconf]
    simp [di.Factory.Make, di.NewFactory, di.lookupName, hb]

/-- Witness for C4 (amended): with an empty configuration map, the etcd
builder's Make fails for the absent name "missing", succeeds for the
absent name "default", and the redis builder's Make fails for the
absent name "missing". -/
theorem C4_amended_builder_lookup_witness :
    ((fun _ => none : String → Option otetcd.EtcdOption) "missing" = none)
  ∧ ("missing" : String) ≠ "default"
  ∧ (di.Factory.Make (di.NewFactory (otetcd.build (fun _ => Except.ok 0) (fun _ => ())
        none none (fun _ => none))) "missing").1
      = Except.error "etcd configuration missing not valid"
  ∧ (∃ cl, (di.Factory.Make (di.NewFactory (otetcd.build (fun _ => Except.ok 0)
        (fun _ => ()) none none (fun _ => none))) "default").1 = Except.ok cl)
  ∧ (di.Factory.Make (di.NewFactory (otredis.build (fun _ => ()) (fun _ => ())
        none (fun _ => none))) "missing").1
      = Except.error "redis configuration missing not valid" := by
  have h := C4_amended_builder_lookup (fun _ => ()) (fun _ => ()) none (fun _ => none)
    (fun _ => Except.ok 0) (fun _ => ()) none (fun _ => none) none "missing"
  exact ⟨rfl, by decide, h.1 rfl (by decide), h.2.1 rfl, h.2.2 rfl⟩

/-- Claim C5 (code bug in the etcd collaborator): the etcd builder
discards the construction error of `clientv3.New` — with an underlying
client constructor that always fails, `Make("default")` on an empty
configuration still reports success, returning a nil client and a nil
error instead of propagating the build failure to the Make caller. -/
theorem C5_etcd_swallows_construction_failure :
    (di.Factory.Make (di.NewFactory (otetcd.build
        (fun _ => Except.error "dial failed") (fun _ => ()) none none
        (fun _ => none))) "default").1
      = Except.ok (none : Option Unit) := by
  rfl

/-- Claim C6, counterexample: when the generic factory hands the redis
typed wrapper an instance whose dynamic type is not
`redis.UniversalClient`, the wrapper's unchecked type assertion panics;
the mismatch is a crash, not an error return. -/
theorem C6_counterexample_type_mismatch_panics :
    (otredis.FactoryMake (di.NewFactory (fun _ =>
        Except.ok { conn := (GoVal.etcdClient 0 : GoVal Nat Nat), closer := () }))
      "default").1 = TypedResult.panicked
  ∧ ((otredis.FactoryMake (di.NewFactory (fun _ =>
        Except.ok { conn := (GoVal.etcdClient 0 : GoVal Nat Nat), closer := () }))
      "default").1).isErrReturn = false :=
  ⟨rfl, rfl⟩

/-- Claim C6, amended: for both typed wrappers, an error from the
generic factory is returned to the caller with a nil instance; an
instance of the expected dynamic type is returned; and an instance of
an unexpected dynamic type makes the unchecked type assertion panic
rather than produce an error return. -/
theorem C6_amended_typed_wrapper_behavior {ρ ε Z : Type}
    (f f2 : di.Factory (GoVal ρ ε) Z) (name e : String) (rc : ρ) (ec : ε) :
    (f.Make name = (Except.error e, f2) →
      otredis.FactoryMake f name = (TypedResult.err e, f2))
  ∧ (f.Make name = (Except.ok (GoVal.redisClient rc), f2) →
      otredis.FactoryMake f name = (TypedResult.ok rc, f2))
  ∧ (f.Make name = (Except.ok (GoVal.etcdClient ec), f2) →
      otredis.FactoryMake f name = (TypedResult.panicked, f2))
  ∧ (f.Make name = (Except.error e, f2) →
      otetcd.FactoryMake f name = (TypedResult.err e, f2))
  ∧ (f.Make name = (Except.ok (GoVal.etcdClient ec), f2) →
      otetcd.FactoryMake f name = (TypedResult.ok ec, f2))
  ∧ (f.Make name = (Except.ok (GoVal.redisClient rc), f2) →
      otetcd.FactoryMake f name = (TypedResult.panicked, f2)) := by
  refine ⟨?_, ?_, ?_, ?_, ?_, ?_⟩ <;>
    · intro h
      simp [otredis.FactoryMake, otetcd.FactoryMake, h]

/-- Witness for C6 (amended): concrete factories exercising the error
path, the matching path, and the mismatching (panicking) path of the
redis typed wrapper. -/
theorem C6_amended_typed_wrapper_behavior_witness :
    errFactory.Make "a" = (Except.error "boom", errFactory)
  ∧ otredis.FactoryMake errFactory "a" = (TypedResult.err "boom", errFactory)
  ∧ matchFactory.Make "a" = (Except.ok (GoVal.redisClient 2), matchFactory2)
  ∧ otredis.FactoryMake matchFactory "a" = (TypedResult.ok 2, matchFactory2)
  ∧ mismatchFactory.Make "a" = (Except.ok (GoVal.etcdClient 1), mismatchFactory2)
  ∧ otredis.FactoryMake mismatchFactory "a" = (TypedResult.panicked, mismatchFactory2) := by
  have h1 := C6_amended_typed_wrapper_behavior errFactory errFactory "a" "boom"
    (2 : Nat) (1 : Nat)
  have h2 := C6_amended_typed_wrapper_behavior matchFactory matchFactory2 "a" "boom"
    (2 : Nat) (1 : Nat)
  have h3 := C6_amended_typed_wrapper_behavior mismatchFactory mismatchFactory2 "a" "boom"
    (2 : Nat) (1 : Nat)
  exact ⟨rfl, h1.1 rfl, rfl, h2.2.1 rfl, rfl, h3.2.2.1 rfl⟩

/-- Claim C10: with the name "default" absent from the parsed
configuration and the `ETCD_ADDR` environment variable unset, the etcd
builder's hard-coded fallback endpoint is 127.0.0.1:6379 (the client it
constructs receives exactly that endpoint list), while the
collaborator's own exported default configuration publishes
127.0.0.1:2379 — and the two differ. -/
theorem C10_fallback_endpoint_mismatch :
    otetcd.build (fun co => Except.ok co.endpoints) (fun _ => ()) none none
        (fun _ => none) "default"
      = Except.ok { conn := some ["127.0.0.1:6379"], closer := () }
  ∧ otetcd.provideConfigDefault.endpoints = ["127.0.0.1:2379"]
  ∧ (["127.0.0.1:6379"] : List String) ≠ ["127.0.0.1:2379"] :=
  ⟨rfl, rfl, by decide⟩

end DoNews
